import Mathlib

/-!
Verification development for the PrivaMed repository.

The repository contains two on-chain contract variants:

* `contracts/PrivaMed.sol` — contract `PrivaMed` (roles as an enum, grants
  keyed by `(recordId, grantee)`, requests in an array, no approve/deny
  entry points, a break-glass `emergencyAccess` that writes a grant).
* the `AccessControlRegistry` contract (roles as hashed byte strings,
  grants keyed by a hash of `(recordId, grantee)`, requests keyed by a
  hash of `(requester, recordId, reason, timestamp)`, approve/deny
  transitions, a break-glass `emergencyAccess` that only logs).

Both are embedded shallowly below.  Addresses and `bytes32` values are
modelled as natural numbers; `keccak256` over a tuple of arguments is
modelled by using the tuple itself as the map key (keccak is treated as
injective, its standard idealisation).  Solidity mappings become total
functions with the zero struct as default; a sequence of `require`
statements becomes a nested if-chain whose failure arms are
`Except.error` carrying the revert string; emitted events are returned
as an explicit list.  Since Solidity 0.8 checked arithmetic reverts on
overflow, the one addition on untrusted input (`block.timestamp +
validForSeconds`) carries an explicit `2^256` bound check.
-/

namespace PM

/-- Ethereum addresses, modelled as naturals (0 is `address(0)`). -/
abbrev Address : Type := Nat

/-- Record identifiers for contract `PrivaMed`: `keccak256(abi.encodePacked(msg.sender, cid, block.timestamp))`, modelled injectively as the triple itself. -/
abbrev RecordId : Type := Address × String × Nat

/-- The `Role` enum of `PrivaMed.sol`. -/
inductive Role where
  | RNone
  | Patient
  | Provider
  | Auditor
deriving DecidableEq, Repr

/-- The `User` struct of `PrivaMed.sol`: role plus existence flag. -/
structure User where
  role : Role
  registered : Bool
deriving DecidableEq, Repr

/-- The `Record` struct of `PrivaMed.sol`. -/
structure Rec where
  owner : Address
  cid : String
  createdAt : Nat
  present : Bool
deriving DecidableEq, Repr

/-- The `AccessGrant` struct of `PrivaMed.sol`: `bytes32 scope` modelled as a natural (0 = `bytes32(0)`). -/
structure AccessGrant where
  active : Bool
  validUntil : Nat
  scope : Nat
deriving DecidableEq, Repr

/-- The `AccessRequest` struct of `PrivaMed.sol`. -/
structure AccessRequest where
  requester : Address
  recordId : RecordId
  reason : String
  createdAt : Nat
  fulfilled : Bool
deriving DecidableEq, Repr

/-- The events declared by `PrivaMed.sol`. -/
inductive Event where
  | UserRegistered (user : Address) (role : Role)
  | RecordAdded (recordId : RecordId) (owner : Address) (cid : String)
  | AccessGranted (recordId : RecordId) (grantee : Address) (validUntil : Nat) (scope : Nat)
  | AccessRevoked (recordId : RecordId) (grantee : Address)
  | AccessRequested (requestId : Nat) (recordId : RecordId) (requester : Address) (reason : String)
  | AccessEvent (recordId : RecordId) (actor : Address) (success : Bool) (action : String) (timestamp : Nat)
  | EmergencyAccess (recordId : RecordId) (actor : Address) (justificationHash : Nat) (validUntil : Nat) (timestamp : Nat)
deriving DecidableEq, Repr

/-- The contract storage of `PrivaMed.sol`: the three mappings, the request array and the admin address. -/
structure State where
  users : Address → User
  records : RecordId → Rec
  grants : RecordId → Address → AccessGrant
  requests : List AccessRequest
  admin : Address

/-- The zero `User` struct (mapping default). -/
def User.zero : User := { role := Role.RNone, registered := false }

/-- The zero `Record` struct (mapping default). -/
def Rec.zero : Rec := { owner := 0, cid := "", createdAt := 0, present := false }

/-- The zero `AccessGrant` struct (mapping default). -/
def AccessGrant.zero : AccessGrant := { active := false, validUntil := 0, scope := 0 }

/-- Constructor of `PrivaMed`: all mappings empty, `admin = msg.sender`. -/
def State.init (deployer : Address) : State :=
  { users := fun _ => User.zero
    records := fun _ => Rec.zero
    grants := fun _ _ => AccessGrant.zero
    requests := []
    admin := deployer }

/-- Word bound of `uint256`: checked arithmetic in Solidity 0.8 reverts at this bound. -/
def WORD : Nat := 2 ^ 256

/-- Shallow embedding of `PrivaMed.registerUser` (`onlyAdmin`; rejects the zero address and the `None` role; unconditionally overwrites the slot). -/
def registerUser (s : State) (sender userAddr : Address) (role : Role) :
    Except String (State × List Event) :=
  if sender ≠ s.admin then .error "Admin only"
  else if userAddr = 0 then .error "zero address"
  else if role = Role.RNone then .error "invalid role"
  else
    .ok ({ s with users := fun a =>
            (if a = userAddr then { role := role, registered := true } else s.users a) },
         [Event.UserRegistered userAddr role])

/-- Shallow embedding of `PrivaMed.addRecord` (`onlyRegistered`; patient or auditor; id derived from `(msg.sender, cid, block.timestamp)`; collision aborts). -/
def addRecord (s : State) (sender : Address) (cid : String) (now : Nat) :
    Except String (State × RecordId × List Event) :=
  if ¬ (s.users sender).registered then .error "User not registered"
  else if ¬ ((s.users sender).role = Role.Patient ∨ (s.users sender).role = Role.Auditor) then
    .error "Only patient or auditor may add records"
  else if (s.records (sender, cid, now)).present then .error "RecordId already exists"
  else
    .ok ({ s with records := fun r =>
            (if r = (sender, cid, now) then
              { owner := sender, cid := cid, createdAt := now, present := true }
             else s.records r) },
         (sender, cid, now),
         [Event.RecordAdded (sender, cid, now) sender cid])

/-- Shallow embedding of `PrivaMed.grantAccess` (`recordExists`; owner-only; grantee must be a registered provider and nonzero; upserts the grant; no expiry validation appears in the source). -/
def grantAccess (s : State) (sender : Address) (recordId : RecordId) (grantee : Address)
    (validUntil : Nat) (scope : Nat) : Except String (State × List Event) :=
  if ¬ (s.records recordId).present then .error "Record not found"
  else if sender ≠ (s.records recordId).owner then .error "Only owner can grant"
  else if ¬ ((s.users grantee).registered ∧ (s.users grantee).role = Role.Provider) then
    .error "Grantee must be a registered provider"
  else if grantee = 0 then .error "Not a valid grantee"
  else
    .ok ({ s with grants := fun r a =>
            (if r = recordId ∧ a = grantee then
              { active := true, validUntil := validUntil, scope := scope }
             else s.grants r a) },
         [Event.AccessGranted recordId grantee validUntil scope])

/-- Shallow embedding of `PrivaMed.revokeAccess` (`recordExists`; owner-only; requires an active grant; clears only the `active` flag). -/
def revokeAccess (s : State) (sender : Address) (recordId : RecordId) (grantee : Address) :
    Except String (State × List Event) :=
  if ¬ (s.records recordId).present then .error "Record not found"
  else if sender ≠ (s.records recordId).owner then .error "Only owner can revoke"
  else if ¬ (s.grants recordId grantee).active then .error "Grant not active"
  else
    .ok ({ s with grants := fun r a =>
            (if r = recordId ∧ a = grantee then { s.grants recordId grantee with active := false }
             else s.grants r a) },
         [Event.AccessRevoked recordId grantee])

/-- Shallow embedding of `PrivaMed.requestAccess` (`recordExists`, then `onlyRegistered`; provider-only; appends a request with `fulfilled = false`). -/
def requestAccess (s : State) (sender : Address) (recordId : RecordId) (reason : String)
    (now : Nat) : Except String (State × List Event) :=
  if ¬ (s.records recordId).present then .error "Record not found"
  else if ¬ (s.users sender).registered then .error "User not registered"
  else if (s.users sender).role ≠ Role.Provider then .error "Only provider may request"
  else
    .ok ({ s with requests := s.requests ++
            [{ requester := sender, recordId := recordId, reason := reason, createdAt := now
               fulfilled := false }] },
         [Event.AccessRequested s.requests.length recordId sender reason])

/-- Shallow embedding of `PrivaMed.emergencyAccess` (`recordExists`, `onlyRegistered`; provider-only; writes a grant for the caller with `validUntil = now + validForSeconds` and `scope = bytes32(0)`; the checked addition reverts at `2^256`). -/
def emergencyAccess (s : State) (sender : Address) (recordId : RecordId)
    (justificationHash : Nat) (validForSeconds : Nat) (now : Nat) :
    Except String (State × List Event) :=
  if ¬ (s.records recordId).present then .error "Record not found"
  else if ¬ (s.users sender).registered then .error "User not registered"
  else if (s.users sender).role ≠ Role.Provider then .error "Only provider may use emergency"
  else if ¬ (now + validForSeconds < WORD) then .error "arithmetic overflow"
  else
    .ok ({ s with grants := fun r a =>
            (if r = recordId ∧ a = sender then
              { active := true, validUntil := now + validForSeconds, scope := 0 }
             else s.grants r a) },
         [Event.EmergencyAccess recordId sender justificationHash (now + validForSeconds) now])

/-- Shallow embedding of `PrivaMed.isAuthorized` (view; `recordExists` modifier so an unknown record reverts; otherwise checks the grant and expiry). -/
def isAuthorized (s : State) (recordId : RecordId) (actor : Address) (now : Nat) :
    Except String Bool :=
  if ¬ (s.records recordId).present then .error "Record not found"
  else if ¬ (s.grants recordId actor).active then .ok false
  else if (s.grants recordId actor).validUntil = 0 then .ok true
  else .ok (decide (now ≤ (s.grants recordId actor).validUntil))

/-- Shallow embedding of `PrivaMed.logAccessEvent` (only the `recordExists` modifier guards it; the caller is not required to be registered; emits the event and changes no storage). -/
def logAccessEvent (s : State) (sender : Address) (recordId : RecordId) (actor : Address)
    (success : Bool) (action : String) (now : Nat) : Except String (State × List Event) :=
  if ¬ (s.records recordId).present then .error "Record not found"
  else
    let _ := sender
    .ok (s, [Event.AccessEvent recordId actor success action now])

/-- Shallow embedding of `PrivaMed.getRequestCount`. -/
def getRequestCount (s : State) : Nat := s.requests.length

/-- Shallow embedding of `PrivaMed.getRequest` (reverts on an out-of-range index). -/
def getRequest (s : State) (requestId : Nat) : Except String AccessRequest :=
  if h : requestId < s.requests.length then .ok (s.requests.get ⟨requestId, h⟩)
  else .error "invalid id"

/-- Shallow embedding of `PrivaMed.getRecordCID` (`recordExists`; returns the stored locator). -/
def getRecordCID (s : State) (recordId : RecordId) : Except String String :=
  if ¬ (s.records recordId).present then .error "Record not found"
  else .ok (s.records recordId).cid

end PM

namespace ACR

/-- Ethereum addresses for the `AccessControlRegistry` contract. -/
abbrev Address : Type := Nat

/-- Record identifiers for `AccessControlRegistry`: caller-supplied opaque `bytes32` values. -/
abbrev RecordId : Type := Nat

/-- Role constants of `AccessControlRegistry` are `keccak256` of fixed strings; keccak being injective they are modelled as distinct naturals, with 0 the `bytes32(0)` default of an unregistered slot. -/
def ROLE_PATIENT : Nat := 1

/-- Role constant `keccak256("PHYSICIAN")`, modelled as a distinct natural. -/
def ROLE_PHYSICIAN : Nat := 2

/-- Role constant `keccak256("RESPONDER")`, modelled as a distinct natural. -/
def ROLE_RESPONDER : Nat := 3

/-- Role constant `keccak256("AUDITOR")`, modelled as a distinct natural. -/
def ROLE_AUDITOR : Nat := 4

/-- The `User` struct of `AccessControlRegistry`. -/
structure User where
  wallet : Address
  role : Nat
  publicKeyPEM : String
  registered : Bool
deriving DecidableEq, Repr

/-- The `RecordPointer` struct of `AccessControlRegistry`; existence is tested via `timestamp != 0` in the source. -/
structure RecordPointer where
  recordId : RecordId
  ipfsCid : String
  owner : Address
  timestamp : Nat
deriving DecidableEq, Repr

/-- The `AccessGrant` struct of `AccessControlRegistry`; `bytes32 scope` modelled as a string (`bytes32("DEFAULT")` becomes `"DEFAULT"`, `bytes32(0)` becomes `""`). -/
structure AccessGrant where
  present : Bool
  granter : Address
  grantee : Address
  recordId : RecordId
  validUntil : Nat
  scope : String
deriving DecidableEq, Repr

/-- The `AccessEvent` struct of `AccessControlRegistry`. -/
structure AccessEvent where
  actor : Address
  recordId : RecordId
  success : Bool
  timestamp : Nat
  action : String
deriving DecidableEq, Repr

/-- The `AccessRequest` struct of `AccessControlRegistry`. -/
structure AccessRequest where
  requester : Address
  recordId : RecordId
  reason : String
  processed : Bool
  approved : Bool
deriving DecidableEq, Repr

/-- Grant-store keys: `_grantKey` is `keccak256(abi.encodePacked(recordId, grantee))`, modelled injectively as the pair itself. -/
abbrev GrantKey : Type := RecordId × Address

/-- Request keys: `keccak256(abi.encodePacked(msg.sender, recordId, reason, block.timestamp))`, modelled injectively as the 4-tuple itself. -/
abbrev RequestKey : Type := Address × RecordId × String × Nat

/-- The events declared by `AccessControlRegistry`. -/
inductive Event where
  | UserRegistered (wallet : Address) (role : Nat) (publicKeyPEM : String)
  | RecordAdded (recordId : RecordId) (ipfsCid : String) (patient : Address)
  | AccessGranted (granter : Address) (grantee : Address) (recordId : RecordId) (validUntil : Nat) (scope : String)
  | AccessRevoked (granter : Address) (grantee : Address) (recordId : RecordId)
  | AccessEventLogged (actor : Address) (recordId : RecordId) (success : Bool) (timestamp : Nat) (action : String)
  | AccessRequested (requestId : RequestKey) (requester : Address) (recordId : RecordId) (reason : String)
  | AccessRequestApproved (requestId : RequestKey)
  | AccessRequestDenied (requestId : RequestKey)
  | EmergencyAccess (actor : Address) (recordId : RecordId) (justificationHash : String) (timestamp : Nat)
deriving DecidableEq, Repr

/-- The contract storage of `AccessControlRegistry`, including the `Ownable` contract owner. -/
structure State where
  contractOwner : Address
  users : Address → User
  records : RecordId → RecordPointer
  accessGrants : GrantKey → AccessGrant
  accessRequests : RequestKey → AccessRequest
  accessEvents : RecordId → List AccessEvent

/-- The zero `User` struct (mapping default). -/
def User.zero : User := { wallet := 0, role := 0, publicKeyPEM := "", registered := false }

/-- The zero `RecordPointer` struct (mapping default). -/
def RecordPointer.zero : RecordPointer := { recordId := 0, ipfsCid := "", owner := 0, timestamp := 0 }

/-- The zero `AccessGrant` struct (mapping default, also the value restored by `delete`). -/
def AccessGrant.zero : AccessGrant :=
  { present := false, granter := 0, grantee := 0, recordId := 0, validUntil := 0, scope := "" }

/-- The zero `AccessRequest` struct (mapping default). -/
def AccessRequest.zero : AccessRequest :=
  { requester := 0, recordId := 0, reason := "", processed := false, approved := false }

/-- Constructor: `Ownable(msg.sender)` sets the contract owner; all mappings empty. -/
def State.init (deployer : Address) : State :=
  { contractOwner := deployer
    users := fun _ => User.zero
    records := fun _ => RecordPointer.zero
    accessGrants := fun _ => AccessGrant.zero
    accessRequests := fun _ => AccessRequest.zero
    accessEvents := fun _ => [] }

/-- Shallow embedding of `AccessControlRegistry.registerUser` (`onlyOwner`; rejects the zero address and an already-registered wallet; stores the user). -/
def registerUser (s : State) (sender wallet : Address) (role : Nat) (publicKeyPEM : String) :
    Except String (State × List Event) :=
  if sender ≠ s.contractOwner then .error "Ownable: caller is not the owner"
  else if wallet = 0 then .error "Invalid address"
  else if (s.users wallet).registered then .error "User exists"
  else
    .ok ({ s with users := fun a =>
            (if a = wallet then
              { wallet := wallet, role := role, publicKeyPEM := publicKeyPEM, registered := true }
             else s.users a) },
         [Event.UserRegistered wallet role publicKeyPEM])

/-- Shallow embedding of `AccessControlRegistry.addRecord` (`onlyExistingUser`; the named patient must be a registered `ROLE_PATIENT`; id collision aborts). -/
def addRecord (s : State) (sender : Address) (recordId : RecordId) (ipfsCid : String)
    (patient : Address) (now : Nat) : Except String (State × List Event) :=
  if ¬ (s.users sender).registered then .error "User not registered"
  else if ¬ ((s.users patient).registered ∧ (s.users patient).role = ROLE_PATIENT) then
    .error "Invalid patient"
  else if (s.records recordId).timestamp ≠ 0 then .error "Record exists"
  else
    .ok ({ s with records := fun r =>
            (if r = recordId then
              { recordId := recordId, ipfsCid := ipfsCid, owner := patient, timestamp := now }
             else s.records r) },
         [Event.RecordAdded recordId ipfsCid patient])

/-- Shallow embedding of `AccessControlRegistry.grantAccess` (`onlyExistingUser`; record must exist and be owned by the caller; requires `validUntil > block.timestamp`; upserts the keyed grant). -/
def grantAccess (s : State) (sender grantee : Address) (recordId : RecordId)
    (validUntil : Nat) (scope : String) (now : Nat) : Except String (State × List Event) :=
  if ¬ (s.users sender).registered then .error "User not registered"
  else if (s.records recordId).timestamp = 0 then .error "Unknown record"
  else if (s.records recordId).owner ≠ sender then .error "Not owner"
  else if ¬ (validUntil > now) then .error "validUntil in past"
  else
    .ok ({ s with accessGrants := fun k =>
            (if k = (recordId, grantee) then
              { present := true, granter := sender, grantee := grantee, recordId := recordId
                validUntil := validUntil, scope := scope }
             else s.accessGrants k) },
         [Event.AccessGranted sender grantee recordId validUntil scope])

/-- Shallow embedding of `AccessControlRegistry.revokeAccess` (`onlyExistingUser`; requires an existing grant; caller must be the granter or the record owner; `delete` resets the slot to the zero struct). -/
def revokeAccess (s : State) (sender grantee : Address) (recordId : RecordId) :
    Except String (State × List Event) :=
  if ¬ (s.users sender).registered then .error "User not registered"
  else if ¬ (s.accessGrants (recordId, grantee)).present then .error "No grant"
  else if ¬ ((s.accessGrants (recordId, grantee)).granter = sender ∨
             (s.records recordId).owner = sender) then .error "Not allowed"
  else
    .ok ({ s with accessGrants := fun k =>
            (if k = (recordId, grantee) then AccessGrant.zero else s.accessGrants k) },
         [Event.AccessRevoked sender grantee recordId])

/-- Shallow embedding of `AccessControlRegistry.hasAccess` (pure view, no record-existence check: true iff the keyed grant exists and `validUntil >= block.timestamp`). -/
def hasAccess (s : State) (grantee : Address) (recordId : RecordId) (now : Nat) : Bool :=
  (s.accessGrants (recordId, grantee)).present &&
    decide ((s.accessGrants (recordId, grantee)).validUntil ≥ now)

/-- Shallow embedding of `AccessControlRegistry.requestAccess` (`onlyExistingUser`; record must exist; unconditionally writes the request slot at the derived key, `processed = approved = false`). -/
def requestAccess (s : State) (sender : Address) (recordId : RecordId) (reason : String)
    (now : Nat) : Except String (State × RequestKey × List Event) :=
  if ¬ (s.users sender).registered then .error "User not registered"
  else if (s.records recordId).timestamp = 0 then .error "Unknown record"
  else
    .ok ({ s with accessRequests := fun k =>
            (if k = (sender, recordId, reason, now) then
              { requester := sender, recordId := recordId, reason := reason
                processed := false, approved := false }
             else s.accessRequests k) },
         (sender, recordId, reason, now),
         [Event.AccessRequested (sender, recordId, reason, now) sender recordId reason])

/-- Shallow embedding of `AccessControlRegistry.approveRequest` (`onlyExistingUser`; the request must be unprocessed and the caller must own the referenced record; marks it processed and approved and inlines a grant with `validUntil = now + 1 days` and scope `bytes32("DEFAULT")`). -/
def approveRequest (s : State) (sender : Address) (requestId : RequestKey) (now : Nat) :
    Except String (State × List Event) :=
  if ¬ (s.users sender).registered then .error "User not registered"
  else if (s.accessRequests requestId).processed then .error "Processed"
  else if (s.records (s.accessRequests requestId).recordId).owner ≠ sender then .error "Not owner"
  else
    .ok ({ s with
            accessRequests := fun k =>
              (if k = requestId then
                { s.accessRequests requestId with processed := true, approved := true }
               else s.accessRequests k)
            accessGrants := fun k =>
              (if k = ((s.accessRequests requestId).recordId,
                       (s.accessRequests requestId).requester) then
                { present := true, granter := sender
                  grantee := (s.accessRequests requestId).requester
                  recordId := (s.accessRequests requestId).recordId
                  validUntil := now + 86400, scope := "DEFAULT" }
               else s.accessGrants k) },
         [Event.AccessGranted sender (s.accessRequests requestId).requester
            (s.accessRequests requestId).recordId (now + 86400) "DEFAULT",
          Event.AccessRequestApproved requestId])

/-- Shallow embedding of `AccessControlRegistry.denyRequest` (`onlyExistingUser`; same guards as approve; marks it processed and not approved; touches no grant). -/
def denyRequest (s : State) (sender : Address) (requestId : RequestKey) :
    Except String (State × List Event) :=
  if ¬ (s.users sender).registered then .error "User not registered"
  else if (s.accessRequests requestId).processed then .error "Processed"
  else if (s.records (s.accessRequests requestId).recordId).owner ≠ sender then .error "Not owner"
  else
    .ok ({ s with accessRequests := fun k =>
            (if k = requestId then
              { s.accessRequests requestId with processed := true, approved := false }
             else s.accessRequests k) },
         [Event.AccessRequestDenied requestId])

/-- Shallow embedding of `AccessControlRegistry.logAccessEvent` (`onlyExistingUser`; record must exist; appends to the per-record log and emits). -/
def logAccessEvent (s : State) (sender actor : Address) (recordId : RecordId) (success : Bool)
    (action : String) (now : Nat) : Except String (State × List Event) :=
  if ¬ (s.users sender).registered then .error "User not registered"
  else if (s.records recordId).timestamp = 0 then .error "Unknown record"
  else
    .ok ({ s with accessEvents := fun r =>
            (if r = recordId then
              s.accessEvents recordId ++
                [{ actor := actor, recordId := recordId, success := success, timestamp := now
                   action := action }]
             else s.accessEvents r) },
         [Event.AccessEventLogged actor recordId success now action])

/-- Shallow embedding of `AccessControlRegistry.emergencyAccess` (`onlyRole(ROLE_RESPONDER)`; record must exist; ONLY emits the emergency event — no grant is written in this variant). -/
def emergencyAccess (s : State) (sender : Address) (recordId : RecordId)
    (justificationHash : String) (now : Nat) : Except String (State × List Event) :=
  if ¬ ((s.users sender).registered ∧ (s.users sender).role = ROLE_RESPONDER) then
    .error "Invalid role"
  else if (s.records recordId).timestamp = 0 then .error "Unknown record"
  else .ok (s, [Event.EmergencyAccess sender recordId justificationHash now])

end ACR

/-! ## Claim C1 — authorization correctness after a successful grant -/

/-- Base state for the C1 witness: admin 0, patient 1, provider 2, and a record created by the patient at time 100. -/
def c1base : PM.State :=
  match PM.registerUser (PM.State.init 0) 0 1 PM.Role.Patient with
  | .ok (s1, _) =>
    match PM.registerUser s1 0 2 PM.Role.Provider with
    | .ok (s2, _) =>
      match PM.addRecord s2 1 "QmCID" 100 with
      | .ok (s3, _, _) => s3
      | .error _ => s1
    | .error _ => s1
  | .error _ => PM.State.init 0

/-- Record id of the C1 witness record. -/
def c1rid : PM.RecordId := (1, "QmCID", 100)

/-- State of the C1 witness after the owner grants provider 2 access with `validUntil = 5`. -/
def c1post : PM.State :=
  match PM.grantAccess c1base 1 c1rid 2 5 9 with
  | .ok (s, _) => s
  | .error _ => c1base

/-- C1: after `grantAccess(recordId, grantee, validUntil, scope)` succeeds on `PrivaMed`, `isAuthorized(recordId, grantee)` returns true at every time `t ≤ validUntil` (at every time if `validUntil = 0`) and false at every time `t > validUntil` when `validUntil ≠ 0`. -/
theorem C1_grant_authorization_correct
    (s : PM.State) (sender : PM.Address) (rid : PM.RecordId) (grantee : PM.Address)
    (validUntil scope : Nat) (s' : PM.State) (evs : List PM.Event)
    (h : PM.grantAccess s sender rid grantee validUntil scope = .ok (s', evs)) (t : Nat) :
    (validUntil = 0 → PM.isAuthorized s' rid grantee t = .ok true) ∧
    (validUntil ≠ 0 → t ≤ validUntil → PM.isAuthorized s' rid grantee t = .ok true) ∧
    (validUntil ≠ 0 → validUntil < t → PM.isAuthorized s' rid grantee t = .ok false) := by
  unfold PM.grantAccess at h
  split_ifs at h with h1 h2 h3 h4
  injection h with h
  have hs : s' = { s with grants := fun r a =>
      (if r = rid ∧ a = grantee then
        { active := true, validUntil := validUntil, scope := scope }
       else s.grants r a) } := by
    have := congrArg Prod.fst h
    simpa using this.symm
  subst hs
  unfold PM.isAuthorized
  simp only [not_not] at h1
  simp [h1]
  refine ⟨fun hz => by simp [hz], fun hnz hle => by simp [hnz, hle], fun hnz hlt => ?_⟩
  simp [hnz]
  omega

/-- Witness for C1 at a concrete grant (`validUntil = 5`, checked at `t = 3` within the window). -/
theorem C1_witness :
    PM.isAuthorized c1post c1rid 2 3 = .ok true :=
  (C1_grant_authorization_correct c1base 1 c1rid 2 5 9 c1post
    [PM.Event.AccessGranted c1rid 2 5 9] (by rfl) 3).2.1 (by decide) (by decide)

/-! ## Claim C2 — break-glass emergency access on `PrivaMed` -/

/-- Base state for the C2 witness: admin 0, patient 1 owning a record, provider 2 (who is NOT the owner). -/
def c2base : PM.State :=
  match PM.registerUser (PM.State.init 0) 0 1 PM.Role.Patient with
  | .ok (s1, _) =>
    match PM.registerUser s1 0 2 PM.Role.Provider with
    | .ok (s2, _) =>
      match PM.addRecord s2 1 "QmEC" 50 with
      | .ok (s3, _, _) => s3
      | .error _ => s1
    | .error _ => s1
  | .error _ => PM.State.init 0

/-- Record id of the C2 witness record (owned by patient 1, not by the emergency caller 2). -/
def c2rid : PM.RecordId := (1, "QmEC", 50)

/-- C2: a successful `emergencyAccess(recordId, justificationHash, validForSeconds)` call on `PrivaMed` by a registered provider on an existing record upserts an active grant for `(recordId, caller)` with `validUntil = now + validForSeconds` and the reserved scope `bytes32(0)`, and emits exactly one `EmergencyAccess` event (a constructor distinct from `AccessGranted`) carrying the justification hash; the preconditions mention the record owner nowhere, so no owner consent is checked. -/
theorem C2_emergency_upserts_grant
    (s : PM.State) (sender : PM.Address) (rid : PM.RecordId)
    (justificationHash validForSeconds now : Nat)
    (hrec : (s.records rid).present = true)
    (hreg : (s.users sender).registered = true)
    (hrole : (s.users sender).role = PM.Role.Provider)
    (hbound : now + validForSeconds < PM.WORD) :
    PM.emergencyAccess s sender rid justificationHash validForSeconds now =
      .ok ({ s with grants := fun r a =>
              (if r = rid ∧ a = sender then
                { active := true, validUntil := now + validForSeconds, scope := 0 }
               else s.grants r a) },
           [PM.Event.EmergencyAccess rid sender justificationHash (now + validForSeconds) now]) := by
  unfold PM.emergencyAccess
  simp [hrec, hreg, hrole, hbound]

/-- Witness for C2: provider 2 break-glasses into patient 1's record although 2 is not the owner. -/
theorem C2_witness :
    PM.emergencyAccess c2base 2 c2rid 77 3600 60 =
      .ok ({ c2base with grants := fun r a =>
              (if r = c2rid ∧ a = 2 then
                { active := true, validUntil := 60 + 3600, scope := 0 }
               else c2base.grants r a) },
           [PM.Event.EmergencyAccess c2rid 2 77 (60 + 3600) 60]) :=
  C2_emergency_upserts_grant c2base 2 c2rid 77 3600 60 (by rfl) (by rfl) (by rfl)
    (by norm_num [PM.WORD])

/-! ## Claim C3 — expiry validation on grant -/

/-- Base state for C3: admin 0, patient 1 owning a record created at time 100, provider 2. -/
def c3base : PM.State :=
  match PM.registerUser (PM.State.init 0) 0 1 PM.Role.Patient with
  | .ok (s1, _) =>
    match PM.registerUser s1 0 2 PM.Role.Provider with
    | .ok (s2, _) =>
      match PM.addRecord s2 1 "QmC3" 100 with
      | .ok (s3, _, _) => s3
      | .error _ => s1
    | .error _ => s1
  | .error _ => PM.State.init 0

/-- Record id of the C3 record (created at time 100, so any current time is at least 100). -/
def c3rid : PM.RecordId := (1, "QmC3", 100)

/-- Registry-variant base state for C3: contract owner 100, patient 1 owning record 7 (created at time 50). -/
def c3acr : ACR.State :=
  match ACR.registerUser (ACR.State.init 100) 100 1 ACR.ROLE_PATIENT "pk1" with
  | .ok (s1, _) =>
    match ACR.addRecord s1 1 7 "cidA" 1 50 with
    | .ok (s2, _) => s2
    | .error _ => s1
  | .error _ => ACR.State.init 100

/-- Counterexample to C3: on `PrivaMed`, the owner grants with `validUntil = 1` on a record created at time 100 (so the current time exceeds 1) and the call SUCCEEDS — `grantAccess` performs no expiry check at all, while the claim says any non-zero `validUntil` not strictly in the future must fail with `InvalidExpiry`. -/
theorem C3_counterexample :
    (PM.grantAccess c3base 1 c3rid 2 1 0).isOk = true := by decide

/-- C3 amended: `PrivaMed.grantAccess` validates no expiry — its success is fully characterised by record existence, ownership and grantee checks, with `validUntil` unconstrained (so `validUntil = 0` and stale non-zero values are both accepted); in the `AccessControlRegistry` variant, `grantAccess` by the registered owner of an existing record instead fails with `validUntil in past` exactly when `validUntil ≤ now`, which rejects `validUntil = 0` as well. -/
theorem C3_expiry_check_amended
    (s : PM.State) (sender : PM.Address) (rid : PM.RecordId) (grantee : PM.Address)
    (validUntil scope : Nat)
    (t : ACR.State) (tsender tgrantee : ACR.Address) (trid : ACR.RecordId)
    (tvalidUntil : Nat) (tscope : String) (now : Nat)
    (hreg : (t.users tsender).registered = true)
    (hrec : (t.records trid).timestamp ≠ 0)
    (hown : (t.records trid).owner = tsender) :
    ((PM.grantAccess s sender rid grantee validUntil scope).isOk ↔
      ((s.records rid).present = true ∧ sender = (s.records rid).owner ∧
       (s.users grantee).registered = true ∧ (s.users grantee).role = PM.Role.Provider ∧
       grantee ≠ 0)) ∧
    (ACR.grantAccess t tsender tgrantee trid tvalidUntil tscope now =
      .error "validUntil in past" ↔ tvalidUntil ≤ now) := by
  constructor
  · unfold PM.grantAccess
    split_ifs <;> simp_all [Except.isOk, Except.toBool]
  · unfold ACR.grantAccess
    split_ifs <;> simp_all

/-- Witness for C3 amended: a `PrivaMed` grant with `validUntil = 0` on the empty state (characterisation evaluates to false on both sides), and a registry grant by the owner with `validUntil = 0` at time 60 failing as in the past. -/
theorem C3_witness :
    ((PM.grantAccess (PM.State.init 0) 1 (1, "x", 1) 2 0 0).isOk ↔
      (((PM.State.init 0).records (1, "x", 1)).present = true ∧
       1 = ((PM.State.init 0).records (1, "x", 1)).owner ∧
       ((PM.State.init 0).users 2).registered = true ∧
       ((PM.State.init 0).users 2).role = PM.Role.Provider ∧ (2 : PM.Address) ≠ 0)) ∧
    (ACR.grantAccess c3acr 1 2 7 0 "NOTES" 60 = .error "validUntil in past" ↔ (0 : Nat) ≤ 60) :=
  C3_expiry_check_amended (PM.State.init 0) 1 (1, "x", 1) 2 0 0 c3acr 1 2 7 0 "NOTES" 60
    (by rfl) (by decide) (by rfl)

/-! ## Claim C4 — re-registration of an existing principal -/

/-- State for C4 in which address 1 is already registered as a Patient on `PrivaMed`. -/
def c4pm : PM.State :=
  match PM.registerUser (PM.State.init 0) 0 1 PM.Role.Patient with
  | .ok (s1, _) => s1
  | .error _ => PM.State.init 0

/-- State for C4 after the admin re-registers address 1 as a Provider on `PrivaMed`. -/
def c4pm2 : PM.State :=
  match PM.registerUser c4pm 0 1 PM.Role.Provider with
  | .ok (s2, _) => s2
  | .error _ => c4pm

/-- Registry-variant state for C4 in which wallet 1 is already registered. -/
def c4acr : ACR.State :=
  match ACR.registerUser (ACR.State.init 100) 100 1 ACR.ROLE_PATIENT "pk1" with
  | .ok (s1, _) => s1
  | .error _ => ACR.State.init 100

/-- Counterexample to C4: on `PrivaMed`, address 1 is registered as a Patient, yet a second `registerUser` call by the admin for the same address SUCCEEDS (no `AlreadyRegistered` check exists) and changes the stored role to Provider — contradicting both the claimed failure and the claimed role immutability. -/
theorem C4_counterexample :
    (c4pm.users 1).role = PM.Role.Patient ∧
    (PM.registerUser c4pm 0 1 PM.Role.Provider).isOk = true ∧
    (c4pm2.users 1).role = PM.Role.Provider := by decide

/-- C4 amended: in the `AccessControlRegistry` variant re-registration of an existing wallet by the contract owner aborts with `User exists`, leaving the stored principal unchanged, so registration is add-only there; in `PrivaMed.sol`, `registerUser` performs no already-registered check — an admin call with a valid address and role always succeeds and overwrites the stored role. -/
theorem C4_registration_amended
    (t : ACR.State) (tsender wallet : ACR.Address) (role : Nat) (pk : String)
    (hown : tsender = t.contractOwner) (hnz : wallet ≠ 0)
    (hreg : (t.users wallet).registered = true)
    (s : PM.State) (sender userAddr : PM.Address) (prole : PM.Role)
    (hadm : sender = s.admin) (hpnz : userAddr ≠ 0) (hrole : prole ≠ PM.Role.RNone) :
    ACR.registerUser t tsender wallet role pk = .error "User exists" ∧
    PM.registerUser s sender userAddr prole =
      .ok ({ s with users := fun a =>
              (if a = userAddr then { role := prole, registered := true } else s.users a) },
           [PM.Event.UserRegistered userAddr prole]) := by
  constructor
  · unfold ACR.registerUser
    simp [hown, hnz, hreg]
  · unfold PM.registerUser
    simp [hadm, hpnz, hrole]

/-- Witness for C4 amended: re-registering wallet 1 on the registry fails, while re-registering address 1 on `PrivaMed` succeeds and overwrites. -/
theorem C4_witness :
    ACR.registerUser c4acr 100 1 ACR.ROLE_PHYSICIAN "pk2" = .error "User exists" ∧
    PM.registerUser c4pm 0 1 PM.Role.Provider =
      .ok ({ c4pm with users := fun a =>
              (if a = 1 then { role := PM.Role.Provider, registered := true } else c4pm.users a) },
           [PM.Event.UserRegistered 1 PM.Role.Provider]) :=
  C4_registration_amended c4acr 100 1 ACR.ROLE_PHYSICIAN "pk2" (by rfl) (by decide) (by rfl)
    c4pm 0 1 PM.Role.Provider (by rfl) (by decide) (by decide)

/-! ## Claim C5 — authorization query on an unknown record -/

/-- Counterexample to C5: on `PrivaMed`, querying `isAuthorized` for a recordId that denotes no existing record ABORTS with `Record not found` (the `recordExists` modifier) instead of returning false as the claim states. -/
theorem C5_counterexample :
    PM.isAuthorized (PM.State.init 0) (1, "nope", 5) 2 10 = .error "Record not found" ∧
    PM.isAuthorized (PM.State.init 0) (1, "nope", 5) 2 10 ≠ .ok false := by
  refine ⟨rfl, fun hc => ?_⟩
  exact Except.noConfusion hc

/-- C5 amended: on `PrivaMed`, `isAuthorized` on a non-existing record always aborts with `Record not found` (it is still a view with no state effect); the pure read that returns false without aborting is the registry variant's `hasAccess`, which returns false whenever no grant is stored for the pair — in particular for any record nobody ever granted on. -/
theorem C5_unknown_record_amended
    (s : PM.State) (rid : PM.RecordId) (actor : PM.Address) (now : Nat)
    (habs : (s.records rid).present = false)
    (t : ACR.State) (grantee : ACR.Address) (trid : ACR.RecordId) (tnow : Nat)
    (hg : (t.accessGrants (trid, grantee)).present = false) :
    PM.isAuthorized s rid actor now = .error "Record not found" ∧
    ACR.hasAccess t grantee trid tnow = false := by
  constructor
  · unfold PM.isAuthorized
    simp [habs]
  · unfold ACR.hasAccess
    simp [hg]

/-- Witness for C5 amended, on the two freshly deployed states. -/
theorem C5_witness :
    PM.isAuthorized (PM.State.init 3) (4, "c", 9) 5 11 = .error "Record not found" ∧
    ACR.hasAccess (ACR.State.init 3) 5 44 11 = false :=
  C5_unknown_record_amended (PM.State.init 3) (4, "c", 9) 5 11 (by rfl)
    (ACR.State.init 3) 5 44 11 (by rfl)

namespace ACR

/-- The externally callable state-changing entry points of `AccessControlRegistry`, as data; read-only views mutate nothing and are omitted. -/
inductive Op where
  | registerUser (sender wallet : Address) (role : Nat) (pk : String)
  | addRecord (sender : Address) (recordId : RecordId) (cid : String) (patient : Address)
  | grantAccess (sender grantee : Address) (recordId : RecordId) (validUntil : Nat) (scope : String)
  | revokeAccess (sender grantee : Address) (recordId : RecordId)
  | requestAccess (sender : Address) (recordId : RecordId) (reason : String)
  | approveRequest (sender : Address) (requestId : RequestKey)
  | denyRequest (sender : Address) (requestId : RequestKey)
  | logAccessEvent (sender actor : Address) (recordId : RecordId) (success : Bool) (action : String)
  | emergencyAccess (sender : Address) (recordId : RecordId) (justificationHash : String)
deriving DecidableEq, Repr

/-- One transaction against `AccessControlRegistry` at block time `now`: a revert rolls the state back, so an aborted operation leaves the state unchanged. -/
def step (s : State) (op : Op) (now : Nat) : State :=
  match op with
  | .registerUser sender wallet role pk =>
    match registerUser s sender wallet role pk with
    | .ok (s', _) => s' | .error _ => s
  | .addRecord sender recordId cid patient =>
    match addRecord s sender recordId cid patient now with
    | .ok (s', _) => s' | .error _ => s
  | .grantAccess sender grantee recordId validUntil scope =>
    match grantAccess s sender grantee recordId validUntil scope now with
    | .ok (s', _) => s' | .error _ => s
  | .revokeAccess sender grantee recordId =>
    match revokeAccess s sender grantee recordId with
    | .ok (s', _) => s' | .error _ => s
  | .requestAccess sender recordId reason =>
    match requestAccess s sender recordId reason now with
    | .ok (s', _, _) => s' | .error _ => s
  | .approveRequest sender requestId =>
    match approveRequest s sender requestId now with
    | .ok (s', _) => s' | .error _ => s
  | .denyRequest sender requestId =>
    match denyRequest s sender requestId with
    | .ok (s', _) => s' | .error _ => s
  | .logAccessEvent sender actor recordId success action =>
    match logAccessEvent s sender actor recordId success action now with
    | .ok (s', _) => s' | .error _ => s
  | .emergencyAccess sender recordId justificationHash =>
    match emergencyAccess s sender recordId justificationHash now with
    | .ok (s', _) => s' | .error _ => s

end ACR

/-! ## Claim C6 — request monotonicity in the registry variant -/

/-- C6 scenario, step 1-3: deploy (owner 100), register patient 1 and physician 2, store record 7 owned by 1. -/
def c6t3 : ACR.State :=
  ACR.step
    (ACR.step
      (ACR.step (ACR.State.init 100) (ACR.Op.registerUser 100 1 ACR.ROLE_PATIENT "pk1") 10)
      (ACR.Op.registerUser 100 2 ACR.ROLE_PHYSICIAN "pk2") 10)
    (ACR.Op.addRecord 1 7 "cidR" 1) 50

/-- C6 request key derived from `(requester 2, record 7, reason, block time 60)`. -/
def c6k : ACR.RequestKey := (2, 7, "treat", 60)

/-- C6 scenario, step 4: physician 2 requests access at block time 60. -/
def c6t4 : ACR.State := ACR.step c6t3 (ACR.Op.requestAccess 2 7 "treat") 60

/-- C6 scenario, step 5: owner 1 approves the request (first, successful transition). -/
def c6t5 : ACR.State := ACR.step c6t4 (ACR.Op.approveRequest 1 c6k) 60

/-- C6 scenario, step 6: physician 2 repeats the identical `requestAccess` in the same block, which re-derives the same key and silently overwrites the processed request. -/
def c6t6 : ACR.State := ACR.step c6t5 (ACR.Op.requestAccess 2 7 "treat") 60

/-- C6 scenario, step 7: owner 1 now denies the same request id — and succeeds. -/
def c6t7 : ACR.State := ACR.step c6t6 (ACR.Op.denyRequest 1 c6k) 61

/-- Counterexample to C6: after the first successful approve (the request at `c6k` is processed and approved), a later `requestAccess` with identical requester, record, reason and block timestamp overwrites the slot, after which a `denyRequest` with the SAME request id succeeds — not failing with `RequestAlreadyProcessed` — and flips the stored approved flag back to false. -/
theorem C6_counterexample :
    (c6t5.accessRequests c6k).processed = true ∧
    (c6t5.accessRequests c6k).approved = true ∧
    (ACR.denyRequest c6t6 1 c6k).isOk = true ∧
    (c6t7.accessRequests c6k).processed = true ∧
    (c6t7.accessRequests c6k).approved = false := by decide

/-- C6 amended: once a request is processed, any further `approveRequest` or `denyRequest` on its id by a registered caller fails with `Processed`, and every contract operation EXCEPT a `requestAccess` that re-derives the very same key (same requester, record, reason and block timestamp) preserves both the processed mark and the approved flag; moreover a successful approve (deny) leaves the request processed with `approved` true (false). The claim as originally stated fails only because a colliding `requestAccess` overwrites the slot. -/
theorem C6_request_monotonicity_amended
    (s : ACR.State) (k : ACR.RequestKey)
    (hp : (s.accessRequests k).processed = true) :
    (∀ sender now, (s.users sender).registered = true →
       ACR.approveRequest s sender k now = .error "Processed" ∧
       ACR.denyRequest s sender k = .error "Processed") ∧
    (∀ (op : ACR.Op) (now : Nat),
       (op ≠ ACR.Op.requestAccess k.1 k.2.1 k.2.2.1 ∨ now ≠ k.2.2.2) →
       ((ACR.step s op now).accessRequests k).processed = true ∧
       ((ACR.step s op now).accessRequests k).approved = (s.accessRequests k).approved) ∧
    (∀ (s₀ : ACR.State) (sender : ACR.Address) (k₀ : ACR.RequestKey) (now : Nat)
       (s' : ACR.State) (evs : List ACR.Event),
       (ACR.approveRequest s₀ sender k₀ now = .ok (s', evs) →
          (s'.accessRequests k₀).processed = true ∧ (s'.accessRequests k₀).approved = true) ∧
       (ACR.denyRequest s₀ sender k₀ = .ok (s', evs) →
          (s'.accessRequests k₀).processed = true ∧ (s'.accessRequests k₀).approved = false)) := by
  refine ⟨?_, ?_, ?_⟩
  · intro sender now hreg
    constructor
    · unfold ACR.approveRequest
      simp [hreg, hp]
    · unfold ACR.denyRequest
      simp [hreg, hp]
  · intro op now hcol
    cases op with
    | registerUser sender wallet role pk =>
      simp only [ACR.step]
      unfold ACR.registerUser
      split_ifs <;> simp [hp]
    | addRecord sender recordId cid patient =>
      simp only [ACR.step]
      unfold ACR.addRecord
      split_ifs <;> simp [hp]
    | grantAccess sender grantee recordId validUntil scope =>
      simp only [ACR.step]
      unfold ACR.grantAccess
      split_ifs <;> simp [hp]
    | revokeAccess sender grantee recordId =>
      simp only [ACR.step]
      unfold ACR.revokeAccess
      split_ifs <;> simp [hp]
    | requestAccess sender recordId reason =>
      simp only [ACR.step]
      unfold ACR.requestAccess
      have hkey : k ≠ (sender, recordId, reason, now) := by
        rcases hcol with hcol | hcol
        · intro he
          exact hcol (by
            obtain ⟨k1, k2, k3, k4⟩ := k
            simp_all)
        · intro he
          exact hcol (by
            obtain ⟨k1, k2, k3, k4⟩ := k
            simp_all)
      split_ifs <;> simp [hp, hkey]
    | approveRequest sender requestId =>
      simp only [ACR.step]
      unfold ACR.approveRequest
      have hkey : k ≠ requestId ∨ (s.accessRequests requestId).processed = true := by
        by_cases he : k = requestId
        · right; rw [← he]; exact hp
        · left; exact he
      split_ifs with h1 h2 h3 <;> simp [hp]
      rcases hkey with hkey | hkey
      · simp [hkey, hp]
      · exact absurd hkey (by simpa using h2)
    | denyRequest sender requestId =>
      simp only [ACR.step]
      unfold ACR.denyRequest
      have hkey : k ≠ requestId ∨ (s.accessRequests requestId).processed = true := by
        by_cases he : k = requestId
        · right; rw [← he]; exact hp
        · left; exact he
      split_ifs with h1 h2 h3 <;> simp [hp]
      rcases hkey with hkey | hkey
      · simp [hkey, hp]
      · exact absurd hkey (by simpa using h2)
    | logAccessEvent sender actor recordId success action =>
      simp only [ACR.step]
      unfold ACR.logAccessEvent
      split_ifs <;> simp [hp]
    | emergencyAccess sender recordId justificationHash =>
      simp only [ACR.step]
      unfold ACR.emergencyAccess
      split_ifs <;> simp [hp]
  · intro s₀ sender k₀ now s' evs
    constructor
    · intro h
      unfold ACR.approveRequest at h
      split_ifs at h
      injection h with h
      have hs : s' = _ := (congrArg Prod.fst h).symm
      subst hs
      simp
    · intro h
      unfold ACR.denyRequest at h
      split_ifs at h
      injection h with h
      have hs : s' = _ := (congrArg Prod.fst h).symm
      subst hs
      simp

/-- Witness for C6 amended at the concrete processed request of the scenario. -/
theorem C6_witness :
    (∀ sender now, (c6t5.users sender).registered = true →
       ACR.approveRequest c6t5 sender c6k now = .error "Processed" ∧
       ACR.denyRequest c6t5 sender c6k = .error "Processed") ∧
    (∀ (op : ACR.Op) (now : Nat),
       (op ≠ ACR.Op.requestAccess c6k.1 c6k.2.1 c6k.2.2.1 ∨ now ≠ c6k.2.2.2) →
       ((ACR.step c6t5 op now).accessRequests c6k).processed = true ∧
       ((ACR.step c6t5 op now).accessRequests c6k).approved = (c6t5.accessRequests c6k).approved) ∧
    (∀ (s₀ : ACR.State) (sender : ACR.Address) (k₀ : ACR.RequestKey) (now : Nat)
       (s' : ACR.State) (evs : List ACR.Event),
       (ACR.approveRequest s₀ sender k₀ now = .ok (s', evs) →
          (s'.accessRequests k₀).processed = true ∧ (s'.accessRequests k₀).approved = true) ∧
       (ACR.denyRequest s₀ sender k₀ = .ok (s', evs) →
          (s'.accessRequests k₀).processed = true ∧ (s'.accessRequests k₀).approved = false)) :=
  C6_request_monotonicity_amended c6t5 c6k (by decide)

/-! ## Claim C7 — approval grants access atomically, denial does not -/

/-- C7 scenario: owner 100 registers patient 1 and physician 2, record 7 owned by 1, then physician 2 requests access at block time 60. -/
def c7pre : ACR.State :=
  ACR.step
    (ACR.step
      (ACR.step
        (ACR.step (ACR.State.init 100) (ACR.Op.registerUser 100 1 ACR.ROLE_PATIENT "pkA") 10)
        (ACR.Op.registerUser 100 2 ACR.ROLE_PHYSICIAN "pkB") 10)
      (ACR.Op.addRecord 1 7 "cidQ" 1) 50)
    (ACR.Op.requestAccess 2 7 "care") 60

/-- C7 request key of the pending request. -/
def c7k : ACR.RequestKey := (2, 7, "care", 60)

/-- C7 state after the owner approves the pending request at block time 61. -/
def c7post : ACR.State :=
  match ACR.approveRequest c7pre 1 c7k 61 with
  | .ok (s, _) => s
  | .error _ => c7pre

/-- C7: a successful `approveRequest` by the record owner marks the request processed and approved and, atomically, writes a grant for `(recordId, requester)` with the fixed default window `now + 1 days` and the default scope tag `DEFAULT`, so that `hasAccess(requester, recordId)` is true immediately afterwards; a successful `denyRequest` changes no grant. -/
theorem C7_approve_grants_access
    (s : ACR.State) (sender : ACR.Address) (k : ACR.RequestKey) (now : Nat)
    (s' : ACR.State) (evs : List ACR.Event)
    (h : ACR.approveRequest s sender k now = .ok (s', evs)) :
    ((s'.accessRequests k).processed = true ∧ (s'.accessRequests k).approved = true) ∧
    s'.accessGrants ((s.accessRequests k).recordId, (s.accessRequests k).requester) =
      { present := true, granter := sender, grantee := (s.accessRequests k).requester
        recordId := (s.accessRequests k).recordId, validUntil := now + 86400
        scope := "DEFAULT" } ∧
    ACR.hasAccess s' (s.accessRequests k).requester (s.accessRequests k).recordId now = true ∧
    (∀ (t : ACR.State) (tsender : ACR.Address) (tk : ACR.RequestKey) (t' : ACR.State)
       (tevs : List ACR.Event),
       ACR.denyRequest t tsender tk = .ok (t', tevs) → t'.accessGrants = t.accessGrants) := by
  unfold ACR.approveRequest at h
  split_ifs at h
  injection h with h
  have hs : s' = _ := (congrArg Prod.fst h).symm
  subst hs
  refine ⟨by simp, by simp, ?_, ?_⟩
  · unfold ACR.hasAccess
    simp
  · intro t tsender tk t' tevs h'
    unfold ACR.denyRequest at h'
    split_ifs at h'
    injection h' with h'
    have ht : t' = _ := (congrArg Prod.fst h').symm
    subst ht
    rfl

/-- Witness for C7 at the concrete pending request of the scenario, approved at block time 61. -/
theorem C7_witness :
    ((c7post.accessRequests c7k).processed = true ∧
     (c7post.accessRequests c7k).approved = true) ∧
    c7post.accessGrants ((c7pre.accessRequests c7k).recordId,
                         (c7pre.accessRequests c7k).requester) =
      { present := true, granter := 1, grantee := (c7pre.accessRequests c7k).requester
        recordId := (c7pre.accessRequests c7k).recordId, validUntil := 61 + 86400
        scope := "DEFAULT" } ∧
    ACR.hasAccess c7post (c7pre.accessRequests c7k).requester
      (c7pre.accessRequests c7k).recordId 61 = true ∧
    (∀ (t : ACR.State) (tsender : ACR.Address) (tk : ACR.RequestKey) (t' : ACR.State)
       (tevs : List ACR.Event),
       ACR.denyRequest t tsender tk = .ok (t', tevs) → t'.accessGrants = t.accessGrants) :=
  C7_approve_grants_access c7pre 1 c7k 61 c7post
    [ACR.Event.AccessGranted 1 (c7pre.accessRequests c7k).requester
       (c7pre.accessRequests c7k).recordId (61 + 86400) "DEFAULT",
     ACR.Event.AccessRequestApproved c7k] (by rfl)

/-! ## Claim C8 — record id uniqueness on `PrivaMed` -/

/-- C8 base state: admin 0 and registered patient 1. -/
def c8base : PM.State :=
  match PM.registerUser (PM.State.init 0) 0 1 PM.Role.Patient with
  | .ok (s1, _) => s1
  | .error _ => PM.State.init 0

/-- C8 state after patient 1 stores a record at block time 100. -/
def c8post : PM.State :=
  match PM.addRecord c8base 1 "QmC8" 100 with
  | .ok (s, _, _) => s
  | .error _ => c8base

/-- C8: after a successful `addRecord`, the derived id is `H(caller, cid, timestamp)`, the record is stored with the caller as owner, and a second `addRecord` with the same `(caller, cid, timestamp)` triple aborts with `RecordId already exists`, so the first record is untouched and no new record is created. -/
theorem C8_record_collision
    (s : PM.State) (sender : PM.Address) (cid : String) (now : Nat)
    (s' : PM.State) (rid : PM.RecordId) (evs : List PM.Event)
    (h : PM.addRecord s sender cid now = .ok (s', rid, evs)) :
    rid = (sender, cid, now) ∧
    s'.records (sender, cid, now) =
      { owner := sender, cid := cid, createdAt := now, present := true } ∧
    PM.addRecord s' sender cid now = .error "RecordId already exists" := by
  unfold PM.addRecord at h
  split_ifs at h with h1 h2 h3
  injection h with h
  have hs : s' = _ := (congrArg Prod.fst h).symm
  have hr : rid = (sender, cid, now) := by
    have := congrArg (fun p => p.2.1) h
    simpa using this.symm
  subst hs
  refine ⟨hr, by simp, ?_⟩
  unfold PM.addRecord
  simp_all

/-- Witness for C8: the repeated `addRecord` with the identical triple fails on the concrete state. -/
theorem C8_witness :
    (1, "QmC8", 100) = ((1 : PM.Address), "QmC8", (100 : Nat)) ∧
    c8post.records (1, "QmC8", 100) =
      { owner := 1, cid := "QmC8", createdAt := 100, present := true } ∧
    PM.addRecord c8post 1 "QmC8" 100 = .error "RecordId already exists" :=
  C8_record_collision c8base 1 "QmC8" 100 c8post (1, "QmC8", 100)
    [PM.Event.RecordAdded (1, "QmC8", 100) 1 "QmC8"] (by rfl)

/-! ## Claim C9 — who may append to the audit log -/

/-- C9 state: admin 0, patient 1 owning a record; address 5 is NOT registered. -/
def c9pm : PM.State :=
  match PM.registerUser (PM.State.init 0) 0 1 PM.Role.Patient with
  | .ok (s1, _) =>
    match PM.addRecord s1 1 "QmC9" 40 with
    | .ok (s2, _, _) => s2
    | .error _ => s1
  | .error _ => PM.State.init 0

/-- C9 record id. -/
def c9rid : PM.RecordId := (1, "QmC9", 40)

/-- Counterexample to C9: on `PrivaMed`, the unregistered address 5 calls `logAccessEvent` on an existing record and the call SUCCEEDS, emitting the access event — the contract checks only `recordExists`, never the caller's registration (its own test suite asserts it is callable by anyone). -/
theorem C9_counterexample :
    (c9pm.users 5).registered = false ∧
    PM.logAccessEvent c9pm 5 c9rid 2 true "READ" 99 =
      .ok (c9pm, [PM.Event.AccessEvent c9rid 2 true "READ" 99]) := by
  exact ⟨by decide, by rfl⟩

/-- C9 amended: `PrivaMed.logAccessEvent` succeeds for EVERY caller whenever the record exists (registration of the caller is not checked, and the call appends nothing to storage — it only emits); it is the `AccessControlRegistry` variant whose `logAccessEvent` aborts with `User not registered` for an unregistered caller. -/
theorem C9_log_guard_amended
    (s : PM.State) (sender : PM.Address) (rid : PM.RecordId) (actor : PM.Address)
    (success : Bool) (action : String) (now : Nat)
    (hrec : (s.records rid).present = true)
    (t : ACR.State) (tsender tactor : ACR.Address) (trid : ACR.RecordId) (tsuccess : Bool)
    (taction : String) (tnow : Nat)
    (hunreg : (t.users tsender).registered = false) :
    PM.logAccessEvent s sender rid actor success action now =
      .ok (s, [PM.Event.AccessEvent rid actor success action now]) ∧
    ACR.logAccessEvent t tsender tactor trid tsuccess taction tnow =
      .error "User not registered" := by
  constructor
  · unfold PM.logAccessEvent
    simp [hrec]
  · unfold ACR.logAccessEvent
    simp [hunreg]

/-- Witness for C9 amended: the unregistered caller 5 logs on `PrivaMed`, and the unregistered caller 5 is rejected by the registry. -/
theorem C9_witness :
    PM.logAccessEvent c9pm 5 c9rid 2 false "WRITE" 77 =
      .ok (c9pm, [PM.Event.AccessEvent c9rid 2 false "WRITE" 77]) ∧
    ACR.logAccessEvent (ACR.State.init 100) 5 2 7 true "READ" 77 =
      .error "User not registered" :=
  C9_log_guard_amended c9pm 5 c9rid 2 false "WRITE" 77 (by decide)
    (ACR.State.init 100) 5 2 7 true "READ" 77 (by rfl)

namespace PM

/-- The externally callable state-changing entry points of contract `PrivaMed`, as data; the contract exposes no approve or deny operation, and views mutate nothing. -/
inductive Op where
  | registerUser (sender userAddr : Address) (role : Role)
  | addRecord (sender : Address) (cid : String)
  | grantAccess (sender : Address) (recordId : RecordId) (grantee : Address) (validUntil scope : Nat)
  | revokeAccess (sender : Address) (recordId : RecordId) (grantee : Address)
  | requestAccess (sender : Address) (recordId : RecordId) (reason : String)
  | emergencyAccess (sender : Address) (recordId : RecordId) (justificationHash validForSeconds : Nat)
  | logAccessEvent (sender : Address) (recordId : RecordId) (actor : Address) (success : Bool) (action : String)
deriving DecidableEq, Repr

/-- One transaction against `PrivaMed` at block time `now`: a revert rolls the state back, so an aborted operation leaves the state unchanged. -/
def step (s : State) (op : Op) (now : Nat) : State :=
  match op with
  | .registerUser sender userAddr role =>
    match registerUser s sender userAddr role with
    | .ok (s', _) => s' | .error _ => s
  | .addRecord sender cid =>
    match addRecord s sender cid now with
    | .ok (s', _, _) => s' | .error _ => s
  | .grantAccess sender recordId grantee validUntil scope =>
    match grantAccess s sender recordId grantee validUntil scope with
    | .ok (s', _) => s' | .error _ => s
  | .revokeAccess sender recordId grantee =>
    match revokeAccess s sender recordId grantee with
    | .ok (s', _) => s' | .error _ => s
  | .requestAccess sender recordId reason =>
    match requestAccess s sender recordId reason now with
    | .ok (s', _) => s' | .error _ => s
  | .emergencyAccess sender recordId justificationHash validForSeconds =>
    match emergencyAccess s sender recordId justificationHash validForSeconds now with
    | .ok (s', _) => s' | .error _ => s
  | .logAccessEvent sender recordId actor success action =>
    match logAccessEvent s sender recordId actor success action now with
    | .ok (s', _) => s' | .error _ => s

/-- States of contract `PrivaMed` reachable from deployment by any sequence of transactions at arbitrary block times. -/
inductive Reachable : State → Prop where
  | init (deployer : Address) : Reachable (State.init deployer)
  | next (s : State) (op : Op) (now : Nat) : Reachable s → Reachable (step s op now)

/-- Every request present after one transaction was already present before it, or has `fulfilled = false`; no operation of `PrivaMed` ever sets `fulfilled` to true. -/
theorem step_requests_fulfilled (s : State) (op : Op) (now : Nat) :
    ∀ r ∈ (step s op now).requests, r ∈ s.requests ∨ r.fulfilled = false := by
  cases op with
  | registerUser sender userAddr role =>
    simp only [step]
    cases hf : registerUser s sender userAddr role with
    | error e => exact fun r hr => Or.inl hr
    | ok p =>
      intro r hr
      unfold registerUser at hf
      split_ifs at hf
      injection hf with hf
      subst hf
      exact Or.inl hr
  | addRecord sender cid =>
    simp only [step]
    cases hf : addRecord s sender cid now with
    | error e => exact fun r hr => Or.inl hr
    | ok p =>
      intro r hr
      unfold addRecord at hf
      split_ifs at hf
      injection hf with hf
      subst hf
      exact Or.inl hr
  | grantAccess sender recordId grantee validUntil scope =>
    simp only [step]
    cases hf : grantAccess s sender recordId grantee validUntil scope with
    | error e => exact fun r hr => Or.inl hr
    | ok p =>
      intro r hr
      unfold grantAccess at hf
      split_ifs at hf
      injection hf with hf
      subst hf
      exact Or.inl hr
  | revokeAccess sender recordId grantee =>
    simp only [step]
    cases hf : revokeAccess s sender recordId grantee with
    | error e => exact fun r hr => Or.inl hr
    | ok p =>
      intro r hr
      unfold revokeAccess at hf
      split_ifs at hf
      injection hf with hf
      subst hf
      exact Or.inl hr
  | requestAccess sender recordId reason =>
    simp only [step]
    cases hf : requestAccess s sender recordId reason now with
    | error e => exact fun r hr => Or.inl hr
    | ok p =>
      intro r hr
      unfold requestAccess at hf
      split_ifs at hf
      injection hf with hf
      subst hf
      simp at hr
      rcases hr with hr | hr
      · exact Or.inl hr
      · right
        rw [hr]
  | emergencyAccess sender recordId justificationHash validForSeconds =>
    simp only [step]
    cases hf : emergencyAccess s sender recordId justificationHash validForSeconds now with
    | error e => exact fun r hr => Or.inl hr
    | ok p =>
      intro r hr
      unfold emergencyAccess at hf
      split_ifs at hf
      injection hf with hf
      subst hf
      exact Or.inl hr
  | logAccessEvent sender recordId actor success action =>
    simp only [step]
    cases hf : logAccessEvent s sender recordId actor success action now with
    | error e => exact fun r hr => Or.inl hr
    | ok p =>
      intro r hr
      unfold logAccessEvent at hf
      split_ifs at hf
      injection hf with hf
      subst hf
      exact Or.inl hr

end PM

/-! ## Claim C10 — no `PrivaMed` request is ever marked fulfilled -/

/-- C10: in every state of contract `PrivaMed` reachable from deployment, every stored access request has `fulfilled = false`: `requestAccess` appends requests with `fulfilled = false` and no entry point of the contract ever writes the flag (the variant exposes no approve or deny operation). -/
theorem C10_requests_never_fulfilled
    (s : PM.State) (hs : PM.Reachable s) :
    ∀ r ∈ s.requests, r.fulfilled = false := by
  induction hs with
  | init d =>
    intro r hr
    simp [PM.State.init] at hr
  | next s op now _ ih =>
    intro r hr
    rcases PM.step_requests_fulfilled s op now r hr with h | h
    · exact ih r h
    · exact h

/-- C10 reachable witness state: deploy, register patient 1 and provider 2, patient stores a record, provider files a request. -/
def c10s : PM.State :=
  PM.step
    (PM.step
      (PM.step
        (PM.step (PM.State.init 0) (PM.Op.registerUser 0 1 PM.Role.Patient) 5)
        (PM.Op.registerUser 0 2 PM.Role.Provider) 5)
      (PM.Op.addRecord 1 "QmTen") 50)
    (PM.Op.requestAccess 2 (1, "QmTen", 50) "treat") 60

/-- Witness for C10: the scenario state holds one request, and the invariant instantiated there says its `fulfilled` flag is false. -/
theorem C10_witness :
    c10s.requests.length = 1 ∧ ∀ r ∈ c10s.requests, r.fulfilled = false :=
  ⟨by decide,
   C10_requests_never_fulfilled c10s
     (PM.Reachable.next _ _ _ (PM.Reachable.next _ _ _
       (PM.Reachable.next _ _ _ (PM.Reachable.next _ _ _ (PM.Reachable.init 0)))))⟩
